import Mathlib

/-!
Verification of the lazy derived-state cache of `RigidObjectCollectionData`
(`source/extensions/omni.isaac.lab/omni/isaac/lab/assets/rigid_object_collection/rigid_object_collection_data.py`).

Tensors are embedded as nested lists of rationals.  A physics-view buffer of
shape `(N, k)` is a `Mat` (`N` rows of `k` components); the caller-facing
`(num_instances, num_objects, k)` tensors are `Tensor3`.
-/

namespace RigidObjectCollection

abbrev Vec := List ℚ
abbrev Mat := List Vec
abbrev Tensor3 := List Mat

/-- `torch.Tensor.reshape(O, I, -1)` on a buffer: flatten to the element
sequence, infer the last dimension `kp = total / (O*I)` when `O*I` divides the
total element count (torch raises otherwise, and also when `O*I = 0`), and
regroup as `O × I × kp`, element `[j][i][c]` being flat element
`(j*I + i)*kp + c`. -/
def reshapeOI (O I : Nat) (data : Mat) : Option Tensor3 :=
  let elems := data.flatten
  if 0 < O * I ∧ (O * I) ∣ elems.length then
    let kp := elems.length / (O * I)
    some ((List.range O).map fun j =>
      (List.range I).map fun i =>
        ((elems.drop ((j * I + i) * kp)).take kp))
  else none

/-- `torch.einsum("ijk -> jik", t)`: swap the two leading axes of a
rectangular rank-3 tensor (`out[j][i] = t[i][j]`). -/
def einsum_ijk_jik (t : Tensor3) : Tensor3 :=
  (List.range (t.getD 0 []).length).map fun i => t.map fun row => row.getD i []

/-- `RigidObjectCollectionData._view_to_data_order`:
`torch.einsum("ijk -> jik", data.reshape(self.num_objects, self.num_instances, -1))`. -/
def view_to_data_order (num_objects num_instances : Nat) (data : Mat) :
    Option Tensor3 :=
  (reshapeOI num_objects num_instances data).map einsum_ijk_jik

/-- The external physics view (`self._root_physx_view`): the batched buffers
`get_transforms()` (rows `[px, py, pz, qx, qy, qz, qw]`),
`get_velocities()` (rows of 6) and `get_accelerations()` (rows of 6). -/
structure PhysxSource where
  transforms : Mat
  velocities : Mat
  accelerations : Mat
deriving DecidableEq

/-- `TimestampedBuffer`: a data buffer together with the simulation time at
which it was last computed. -/
structure TimestampedBuffer where
  data : Tensor3
  timestamp : ℚ
deriving DecidableEq

/-- Modelled from the spec: `TimestampedBuffer` lives in
`omni.isaac.lab.utils.buffers`, which is not part of the available sources.
The spec states each cache is created "with `timestamp = -infinity`-equivalent
(a sentinel guaranteed to be less than any valid simulation time)"; valid
simulation times are never negative (the container starts at `0.0` and is
advanced by positive `dt`), so the sentinel is a fixed negative value. -/
def TimestampedBuffer.mkInitial : TimestampedBuffer :=
  { data := [], timestamp := -1 }

/-- The mutable state of `RigidObjectCollectionData`: the construction-time
sizes, the simulation timestamp and the two lazy buffers. -/
structure RODData where
  num_objects : Nat
  num_instances : Nat
  sim_timestamp : ℚ
  object_state_buf : TimestampedBuffer
  object_acc_buf : TimestampedBuffer
deriving DecidableEq

/-- `RigidObjectCollectionData.__init__`: `num_instances` is
`root_physx_view.count // num_objects` (integer division), the simulation
timestamp starts at `0.0`, and both lazy buffers are fresh
`TimestampedBuffer()` instances. -/
def RODData.mk0 (count num_objects : Nat) : RODData :=
  { num_objects := num_objects
    num_instances := count / num_objects
    sim_timestamp := 0
    object_state_buf := TimestampedBuffer.mkInitial
    object_acc_buf := TimestampedBuffer.mkInitial }

/-- `RigidObjectCollectionData.update(dt)`: `self._sim_timestamp += dt`. -/
def RODData.update (d : RODData) (dt : ℚ) : RODData :=
  { d with sim_timestamp := d.sim_timestamp + dt }

/-- Modelled from the spec: `math_utils.convert_quat(q, to="wxyz")` lives in
`omni.isaac.lab.utils.math`, which is not part of the available sources.  The
spec describes it as converting between quaternion component orderings; the
physics view supplies `(x, y, z, w)` and the container's canonical order is
`(w, x, y, z)`, so the last component is moved to the front. -/
def convert_quat_to_wxyz (q : Vec) : Vec :=
  match q with
  | [x, y, z, w] => [w, x, y, z]
  | other => other

/-- The in-place slice assignment
`pose[..., 3:7] = math_utils.convert_quat(pose[..., 3:7], to="wxyz")`
acting on one row of the pose buffer. -/
def set_quat_wxyz_row (r : Vec) : Vec :=
  r.take 3 ++ convert_quat_to_wxyz ((r.drop 3).take 4) ++ r.drop 7

/-- `torch.cat((t, u), dim=-1)` for rank-3 tensors of equal leading shape. -/
def cat3 (t u : Tensor3) : Tensor3 :=
  List.zipWith (List.zipWith (· ++ ·)) t u

/-- `t[..., a:b]` on a rank-3 tensor. -/
def slice3 (a b : Nat) (t : Tensor3) : Tensor3 :=
  t.map (·.map fun r => (r.drop a).take (b - a))

/-- The recomputation performed by the stale branch of
`RigidObjectCollectionData.object_state_w`: reorder the transforms, convert
the quaternion slice to `(w, x, y, z)`, reorder the velocities and
concatenate along the last axis.  A pure function of the current source
state; `none` models a raised reshape error. -/
def compute_object_state_w (O I : Nat) (src : PhysxSource) : Option Tensor3 :=
  match view_to_data_order O I src.transforms,
        view_to_data_order O I src.velocities with
  | some pose, some velocity =>
      some (cat3 (pose.map (·.map set_quat_wxyz_row)) velocity)
  | _, _ => none

/-- The recomputation performed by the stale branch of
`RigidObjectCollectionData.object_acc_w`: reorder the accelerations. -/
def compute_object_acc_w (O I : Nat) (src : PhysxSource) : Option Tensor3 :=
  view_to_data_order O I src.accelerations

/-- The `object_state_w` property read: if the buffer's timestamp is older
than the simulation timestamp, recompute from the source, store the result
and stamp it with the current simulation time.  Returns the value (`none`
models a propagated error), the post-read container state and the number of
times the external source was queried by this read. -/
def RODData.read_object_state_w (src : PhysxSource) (d : RODData) :
    Option Tensor3 × RODData × Nat :=
  if d.object_state_buf.timestamp < d.sim_timestamp then
    match compute_object_state_w d.num_objects d.num_instances src with
    | some val =>
        (some val,
         { d with object_state_buf := { data := val, timestamp := d.sim_timestamp } },
         1)
    | none => (none, d, 1)
  else
    (some d.object_state_buf.data, d, 0)

/-- The `object_acc_w` property read, with the same lazy-refresh shape as
`object_state_w`. -/
def RODData.read_object_acc_w (src : PhysxSource) (d : RODData) :
    Option Tensor3 × RODData × Nat :=
  if d.object_acc_buf.timestamp < d.sim_timestamp then
    match compute_object_acc_w d.num_objects d.num_instances src with
    | some val =>
        (some val,
         { d with object_acc_buf := { data := val, timestamp := d.sim_timestamp } },
         1)
    | none => (none, d, 1)
  else
    (some d.object_acc_buf.data, d, 0)

/-- `object_pos_w`: `object_state_w[..., :3]`, read through the state cache. -/
def RODData.read_object_pos_w (src : PhysxSource) (d : RODData) :
    Option Tensor3 × RODData × Nat :=
  let r := d.read_object_state_w src
  (r.1.map (slice3 0 3), r.2.1, r.2.2)

/-- `object_quat_w`: `object_state_w[..., 3:7]`, read through the state cache. -/
def RODData.read_object_quat_w (src : PhysxSource) (d : RODData) :
    Option Tensor3 × RODData × Nat :=
  let r := d.read_object_state_w src
  (r.1.map (slice3 3 7), r.2.1, r.2.2)

/-- `object_vel_w`: `object_state_w[..., 7:13]`, read through the state cache. -/
def RODData.read_object_vel_w (src : PhysxSource) (d : RODData) :
    Option Tensor3 × RODData × Nat :=
  let r := d.read_object_state_w src
  (r.1.map (slice3 7 13), r.2.1, r.2.2)

/-- `object_lin_vel_w`: `object_state_w[..., 7:10]`. -/
def RODData.read_object_lin_vel_w (src : PhysxSource) (d : RODData) :
    Option Tensor3 × RODData × Nat :=
  let r := d.read_object_state_w src
  (r.1.map (slice3 7 10), r.2.1, r.2.2)

/-- `object_ang_vel_w`: `object_state_w[..., 10:13]`. -/
def RODData.read_object_ang_vel_w (src : PhysxSource) (d : RODData) :
    Option Tensor3 × RODData × Nat :=
  let r := d.read_object_state_w src
  (r.1.map (slice3 10 13), r.2.1, r.2.2)

/-- `object_lin_acc_w`: `object_acc_w[..., 0:3]`, read through the
acceleration cache. -/
def RODData.read_object_lin_acc_w (src : PhysxSource) (d : RODData) :
    Option Tensor3 × RODData × Nat :=
  let r := d.read_object_acc_w src
  (r.1.map (slice3 0 3), r.2.1, r.2.2)

/-- `object_ang_acc_w`: `object_acc_w[..., 3:6]`. -/
def RODData.read_object_ang_acc_w (src : PhysxSource) (d : RODData) :
    Option Tensor3 × RODData × Nat :=
  let r := d.read_object_acc_w src
  (r.1.map (slice3 3 6), r.2.1, r.2.2)

/-- The properties backed by the shared `object_state_w` cache. -/
inductive StateProp where
  | state
  | pos
  | quat
  | vel
  | lin_vel
  | ang_vel

/-- Dispatch a read of one state-backed property. -/
def RODData.readStateProp (p : StateProp) (src : PhysxSource) (d : RODData) :
    Option Tensor3 × RODData × Nat :=
  match p with
  | .state => d.read_object_state_w src
  | .pos => d.read_object_pos_w src
  | .quat => d.read_object_quat_w src
  | .vel => d.read_object_vel_w src
  | .lin_vel => d.read_object_lin_vel_w src
  | .ang_vel => d.read_object_ang_vel_w src

/-- Perform a sequence of state-backed property reads, threading the
container state and accumulating the number of source queries. -/
def readSeq (src : PhysxSource) : RODData → List StateProp → RODData × Nat
  | d, [] => (d, 0)
  | d, p :: ps =>
      let r := RODData.readStateProp p src d
      let rest := readSeq src r.2.1 ps
      (rest.1, r.2.2 + rest.2)

/-- Iterated `update`: the container observes a sequence of timesteps. -/
def RODData.updates (d : RODData) (dts : List ℚ) : RODData :=
  dts.foldl RODData.update d

/-- Container states reachable from construction by `update` calls with
positive `dt` and by property reads against arbitrary source states. -/
inductive Reachable : RODData → Prop where
  | construct (count num_objects : Nat) : Reachable (RODData.mk0 count num_objects)
  | step (d : RODData) (dt : ℚ) : Reachable d → 0 < dt → Reachable (d.update dt)
  | readState (d : RODData) (src : PhysxSource) : Reachable d →
      Reachable (d.read_object_state_w src).2.1
  | readAcc (d : RODData) (src : PhysxSource) : Reachable d →
      Reachable (d.read_object_acc_w src).2.1

/-- A concrete well-shaped source for a collection with 2 objects and
1 instance (`count = 2`). -/
def srcEx : PhysxSource :=
  { transforms := [[1, 2, 3, 4, 5, 6, 7], [8, 9, 10, 11, 12, 13, 14]]
    velocities := [[1, 1, 1, 1, 1, 1], [2, 2, 2, 2, 2, 2]]
    accelerations := [[3, 3, 3, 3, 3, 3], [4, 4, 4, 4, 4, 4]] }

/-- A reachable container state whose caches are warm: constructed, advanced
by `dt = 1`, then both quantities read once. -/
def dEx : RODData :=
  ((((RODData.mk0 2 2).update 1).read_object_state_w srcEx).2.1.read_object_acc_w
    srcEx).2.1

/-- The literal value of `dEx` (used so that kernel evaluation never has to
reduce rational arithmetic). -/
def dExLit : RODData :=
  { num_objects := 2
    num_instances := 1
    sim_timestamp := 1
    object_state_buf :=
      { data := [[[1, 2, 3, 7, 4, 5, 6, 1, 1, 1, 1, 1, 1],
                  [8, 9, 10, 14, 11, 12, 13, 2, 2, 2, 2, 2, 2]]]
        timestamp := 1 }
    object_acc_buf :=
      { data := [[[3, 3, 3, 3, 3, 3], [4, 4, 4, 4, 4, 4]]], timestamp := 1 } }

/-- A source whose acceleration buffer has a wrong leading dimension
(1 row instead of `num_instances * num_objects = 2`) but whose total element
count (6) is divisible by 2. -/
def srcBadShape : PhysxSource :=
  { transforms := [], velocities := [], accelerations := [[3, 3, 3, 3, 3, 3]] }

/-- A source whose acceleration buffer's total element count (3) is not
divisible by `num_instances * num_objects = 2`. -/
def srcBadDvd : PhysxSource :=
  { transforms := [], velocities := [], accelerations := [[1, 2, 3]] }

end RigidObjectCollection

namespace RigidObjectCollection

lemma getD_map_range {α : Type} (f : Nat → α) {n i : Nat} (h : i < n) (d : α) :
    ((List.range n).map f).getD i d = f i := by
  have h1 : i < ((List.range n).map f).length := by simpa using h
  rw [List.getD_eq_getElem _ _ h1, List.getElem_map, List.getElem_range]

lemma flatten_length_const {α : Type} {k : Nat} :
    ∀ {data : List (List α)}, (∀ r ∈ data, r.length = k) →
      data.flatten.length = data.length * k := by
  intro data
  induction data with
  | nil => simp
  | cons r t ih =>
    intro h
    have hr : r.length = k := h r (List.mem_cons_self r t)
    have ht := ih fun s hs => h s (List.mem_cons_of_mem r hs)
    simp only [List.flatten_cons, List.length_append, List.length_cons, hr, ht]
    ring

lemma flatten_extract {α : Type} {k : Nat} :
    ∀ (data : List (List α)) (m : Nat), (∀ r ∈ data, r.length = k) →
      m < data.length → (data.flatten.drop (m * k)).take k = data.getD m [] := by
  intro data
  induction data with
  | nil =>
    intro m _ hm
    simp at hm
  | cons r t ih =>
    intro m h hm
    have hr : r.length = k := h r (List.mem_cons_self r t)
    have ht : ∀ s ∈ t, s.length = k := fun s hs => h s (List.mem_cons_of_mem r hs)
    cases m with
    | zero =>
      simp only [Nat.zero_mul, List.drop_zero, List.flatten_cons, List.getD_cons_zero]
      rw [← hr, List.take_left]
    | succ m =>
      have hstep : (m + 1) * k = r.length + m * k := by rw [hr]; ring
      simp only [List.flatten_cons, List.getD_cons_succ, hstep, List.drop_append]
      exact ih m ht (by simpa using hm)

lemma view_to_data_order_spec (I O k : Nat) (data : Mat)
    (hI : 0 < I) (hO : 0 < O)
    (hlen : data.length = I * O) (hrows : ∀ r ∈ data, r.length = k) :
    ∃ res, view_to_data_order O I data = some res ∧
      res.length = I ∧ (∀ row ∈ res, row.length = O) ∧
      ∀ i j, i < I → j < O →
        (res.getD i []).getD j [] = data.getD (j * I + i) [] := by
  have helems : data.flatten.length = I * O * k := by
    rw [flatten_length_const hrows, hlen]
  have hpos : 0 < O * I := Nat.mul_pos hO hI
  have hdvd : (O * I) ∣ data.flatten.length := by
    rw [helems, Nat.mul_comm O I]
    exact Dvd.intro k rfl
  have hkp : data.flatten.length / (O * I) = k := by
    rw [helems, Nat.mul_comm O I, Nat.mul_div_cancel_left k (Nat.mul_pos hI hO)]
  -- the reshaped tensor
  set g : Nat → Mat := fun j =>
    (List.range I).map fun i =>
      ((data.flatten.drop ((j * I + i) * (data.flatten.length / (O * I)))).take
        (data.flatten.length / (O * I))) with hg
  have hreshape : reshapeOI O I data = some ((List.range O).map g) := by
    simp only [reshapeOI]
    rw [if_pos ⟨hpos, hdvd⟩]
  refine ⟨einsum_ijk_jik ((List.range O).map g), ?_, ?_, ?_, ?_⟩
  · simp only [view_to_data_order, hreshape]
    rfl
  · -- length is I
    have h0 : (((List.range O).map g).getD 0 []).length = I := by
      rw [getD_map_range g hO]
      simp [hg]
    simp only [einsum_ijk_jik, List.length_map, List.length_range, h0]
  · -- each row has length O
    intro row hrow
    simp only [einsum_ijk_jik, List.mem_map] at hrow
    obtain ⟨i, _, hi⟩ := hrow
    simp [← hi]
  · intro i j hi hj
    have h0 : (((List.range O).map g).getD 0 []).length = I := by
      rw [getD_map_range g hO]
      simp [hg]
    have hrow :
        (einsum_ijk_jik ((List.range O).map g)).getD i [] =
          ((List.range O).map g).map fun row => row.getD i [] := by
      simp only [einsum_ijk_jik, h0]
      exact getD_map_range _ hi _
    rw [hrow]
    have hcol :
        ((((List.range O).map g).map fun row => row.getD i []).getD j []) =
          (g j).getD i [] := by
      rw [List.map_map]
      exact getD_map_range _ hj _
    rw [hcol, hg]
    rw [getD_map_range _ hi]
    rw [hkp]
    exact flatten_extract data (j * I + i) hrows
      (by rw [hlen]; calc j * I + i < j * I + I := by omega
            _ = (j + 1) * I := by ring
            _ ≤ O * I := Nat.mul_le_mul_right I hj
            _ = I * O := Nat.mul_comm O I)

/-- **C1.** For an input buffer of `num_instances * num_objects` rows of `k`
components laid out object-major (object `j`, instance `i` at flat row
`j * num_instances + i`), `_view_to_data_order` succeeds, returns a tensor of
shape `(num_instances, num_objects, ·)` and its entry `[i][j]` is exactly flat
row `j * num_instances + i` of the input, for all `i < num_instances` and
`j < num_objects`. -/
theorem view_to_data_order_correct (I O k : Nat) (data : Mat)
    (hI : 0 < I) (hO : 0 < O)
    (hlen : data.length = I * O) (hrows : ∀ r ∈ data, r.length = k) :
    ∃ res, view_to_data_order O I data = some res ∧
      res.length = I ∧ (∀ row ∈ res, row.length = O) ∧
      ∀ i j, i < I → j < O →
        (res.getD i []).getD j [] = data.getD (j * I + i) [] :=
  view_to_data_order_spec I O k data hI hO hlen hrows

/-- Witness for C1 at `I = 2`, `O = 3`, `k = 1`. -/
theorem view_to_data_order_correct_witness :
    ∃ res, view_to_data_order 3 2 [[0], [1], [2], [3], [4], [5]] = some res ∧
      res.length = 2 ∧ (∀ row ∈ res, row.length = 3) ∧
      ∀ i j, i < 2 → j < 3 →
        (res.getD i []).getD j [] =
          ([[0], [1], [2], [3], [4], [5]] : Mat).getD (j * 2 + i) [] :=
  view_to_data_order_correct 2 3 1 [[0], [1], [2], [3], [4], [5]]
    (by decide) (by decide) (by decide) (by decide)

/-- **C2 as stated is false**: on the spec's example (2 instances, 3 objects,
`k = 1`, object-major flattened buffer `[0,1,2,3,4,5]`) the reorder does not
produce `[[0,3],[1,4],[2,5]]`. -/
theorem view_to_data_order_example_claim_false :
    ¬ view_to_data_order 3 2 [[0], [1], [2], [3], [4], [5]] =
        some [[[0], [3]], [[1], [4]], [[2], [5]]] := by decide

/-- **C2 (amended).** On the spec's example the reorder produces
`[[0,2,4],[1,3,5]]`: shape `(2 instances, 3 objects)` with
`result[i][j] = flattened[j*2 + i]`. -/
theorem view_to_data_order_example :
    view_to_data_order 3 2 [[0], [1], [2], [3], [4], [5]] =
      some [[[0], [2], [4]], [[1], [3], [5]]] := by decide

lemma reachable_ts_le {d : RODData} (h : Reachable d) :
    d.object_state_buf.timestamp ≤ d.sim_timestamp ∧
      d.object_acc_buf.timestamp ≤ d.sim_timestamp := by
  induction h with
  | construct count num_objects =>
    refine ⟨?_, ?_⟩ <;> norm_num [RODData.mk0, TimestampedBuffer.mkInitial]
  | step d dt _ hdt ih =>
    refine ⟨?_, ?_⟩ <;> simp only [RODData.update] <;> linarith [ih.1, ih.2]
  | readState d src _ ih =>
    simp only [RODData.read_object_state_w]
    split
    · cases hcomp : compute_object_state_w d.num_objects d.num_instances src with
      | none => simpa [hcomp] using ih
      | some val =>
        constructor
        · simp [hcomp]
        · simpa [hcomp] using ih.2
    · exact ih
  | readAcc d src _ ih =>
    simp only [RODData.read_object_acc_w]
    split
    · cases hcomp : compute_object_acc_w d.num_objects d.num_instances src with
      | none => simpa [hcomp] using ih
      | some val =>
        constructor
        · simpa [hcomp] using ih.1
        · simp [hcomp]
    · exact ih

lemma updates_sim : ∀ (dts : List ℚ) (d : RODData),
    (d.updates dts).sim_timestamp = d.sim_timestamp + dts.sum := by
  intro dts
  induction dts with
  | nil => intro d; simp [RODData.updates]
  | cons dt rest ih =>
    intro d
    have := ih (d.update dt)
    simp only [RODData.updates, List.foldl_cons] at this ⊢
    rw [this]
    simp only [RODData.update, List.sum_cons]
    ring

lemma mk0_two_update_one :
    (RODData.mk0 2 2).update 1 =
      { num_objects := 2
        num_instances := 1
        sim_timestamp := 1
        object_state_buf := { data := [], timestamp := -1 }
        object_acc_buf := { data := [], timestamp := -1 } } := by
  norm_num [RODData.mk0, RODData.update, TimestampedBuffer.mkInitial]

lemma dEx_eq : dEx = dExLit := by
  simp only [dEx, mk0_two_update_one]
  decide

/-- **C3 as stated is false**: `dEx` is a reachable container state in which
reading `object_state_w` twice with no intervening update queries the source
zero times, not exactly once (both reads hit the warm cache). -/
theorem read_twice_not_exactly_once :
    Reachable dEx ∧
      (dEx.read_object_state_w srcEx).2.2 +
        ((dEx.read_object_state_w srcEx).2.1.read_object_state_w srcEx).2.2 = 0 := by
  constructor
  · exact Reachable.readAcc _ srcEx
      (Reachable.readState _ srcEx
        (Reachable.step _ 1 (Reachable.construct 2 2) (by norm_num)))
  · rw [dEx_eq]
    decide

/-- **C3 (amended).** Reading the same cached quantity twice with no
intervening update returns identical results; the second read always hits
the cache (zero source queries), so the source is queried at most once across
the two reads (provided the recomputation succeeds, i.e. the source buffers
are reshapable). -/
theorem read_twice_second_cached (d : RODData) (src : PhysxSource)
    (hstate : (compute_object_state_w d.num_objects d.num_instances src).isSome)
    (hacc : (compute_object_acc_w d.num_objects d.num_instances src).isSome) :
    ((d.read_object_state_w src).1 =
        ((d.read_object_state_w src).2.1.read_object_state_w src).1 ∧
      ((d.read_object_state_w src).2.1.read_object_state_w src).2.2 = 0 ∧
      (d.read_object_state_w src).2.2 +
        ((d.read_object_state_w src).2.1.read_object_state_w src).2.2 ≤ 1) ∧
    ((d.read_object_acc_w src).1 =
        ((d.read_object_acc_w src).2.1.read_object_acc_w src).1 ∧
      ((d.read_object_acc_w src).2.1.read_object_acc_w src).2.2 = 0 ∧
      (d.read_object_acc_w src).2.2 +
        ((d.read_object_acc_w src).2.1.read_object_acc_w src).2.2 ≤ 1) := by
  obtain ⟨v, hv⟩ := Option.isSome_iff_exists.mp hstate
  obtain ⟨w, hw⟩ := Option.isSome_iff_exists.mp hacc
  constructor
  · by_cases hc : d.object_state_buf.timestamp < d.sim_timestamp
    · simp [RODData.read_object_state_w, hc, hv, lt_irrefl]
    · simp [RODData.read_object_state_w, hc]
  · by_cases hc : d.object_acc_buf.timestamp < d.sim_timestamp
    · simp [RODData.read_object_acc_w, hc, hw, lt_irrefl]
    · simp [RODData.read_object_acc_w, hc]

/-- Witness for C3 (amended) at a freshly advanced container and `srcEx`. -/
theorem read_twice_second_cached_witness :
    ((compute_object_state_w ((RODData.mk0 2 2).update 1).num_objects
        ((RODData.mk0 2 2).update 1).num_instances srcEx).isSome ∧
      (compute_object_acc_w ((RODData.mk0 2 2).update 1).num_objects
        ((RODData.mk0 2 2).update 1).num_instances srcEx).isSome) ∧
    ((((RODData.mk0 2 2).update 1).read_object_state_w srcEx).1 =
        ((((RODData.mk0 2 2).update 1).read_object_state_w
          srcEx).2.1.read_object_state_w srcEx).1 ∧
      ((((RODData.mk0 2 2).update 1).read_object_state_w
          srcEx).2.1.read_object_state_w srcEx).2.2 = 0 ∧
      (((RODData.mk0 2 2).update 1).read_object_state_w srcEx).2.2 +
        ((((RODData.mk0 2 2).update 1).read_object_state_w
          srcEx).2.1.read_object_state_w srcEx).2.2 ≤ 1) ∧
    ((((RODData.mk0 2 2).update 1).read_object_acc_w srcEx).1 =
        ((((RODData.mk0 2 2).update 1).read_object_acc_w
          srcEx).2.1.read_object_acc_w srcEx).1 ∧
      ((((RODData.mk0 2 2).update 1).read_object_acc_w
          srcEx).2.1.read_object_acc_w srcEx).2.2 = 0 ∧
      (((RODData.mk0 2 2).update 1).read_object_acc_w srcEx).2.2 +
        ((((RODData.mk0 2 2).update 1).read_object_acc_w
          srcEx).2.1.read_object_acc_w srcEx).2.2 ≤ 1) :=
  ⟨⟨by decide, by decide⟩,
    read_twice_second_cached ((RODData.mk0 2 2).update 1) srcEx
      (by decide) (by decide)⟩

/-- **C4.** From any reachable state, after `update dt` with `dt > 0` the
next read of each cached quantity queries the source exactly once and its
value is the recomputation from the source's state at read time. -/
theorem read_after_update_fresh (d : RODData) (src : PhysxSource) (dt : ℚ)
    (hreach : Reachable d) (hdt : 0 < dt) :
    ((d.update dt).read_object_state_w src).1 =
        compute_object_state_w d.num_objects d.num_instances src ∧
    ((d.update dt).read_object_state_w src).2.2 = 1 ∧
    ((d.update dt).read_object_acc_w src).1 =
        compute_object_acc_w d.num_objects d.num_instances src ∧
    ((d.update dt).read_object_acc_w src).2.2 = 1 := by
  obtain ⟨h1, h2⟩ := reachable_ts_le hreach
  have hc1 : (d.update dt).object_state_buf.timestamp < (d.update dt).sim_timestamp := by
    simp only [RODData.update]
    linarith
  have hc2 : (d.update dt).object_acc_buf.timestamp < (d.update dt).sim_timestamp := by
    simp only [RODData.update]
    linarith
  have hnums : (d.update dt).num_objects = d.num_objects ∧
      (d.update dt).num_instances = d.num_instances := ⟨rfl, rfl⟩
  refine ⟨?_, ?_, ?_, ?_⟩ <;>
    simp only [RODData.read_object_state_w, RODData.read_object_acc_w,
      if_pos hc1, if_pos hc2, hnums.1, hnums.2] <;>
    cases compute_object_state_w d.num_objects d.num_instances src <;>
    cases compute_object_acc_w d.num_objects d.num_instances src <;>
    rfl

/-- Witness for C4 at the freshly constructed container, `dt = 1`, `srcEx`. -/
theorem read_after_update_fresh_witness :
    (Reachable (RODData.mk0 2 2) ∧ (0 : ℚ) < 1) ∧
    (((RODData.mk0 2 2).update 1).read_object_state_w srcEx).1 =
        compute_object_state_w (RODData.mk0 2 2).num_objects
          (RODData.mk0 2 2).num_instances srcEx ∧
    (((RODData.mk0 2 2).update 1).read_object_state_w srcEx).2.2 = 1 ∧
    (((RODData.mk0 2 2).update 1).read_object_acc_w srcEx).1 =
        compute_object_acc_w (RODData.mk0 2 2).num_objects
          (RODData.mk0 2 2).num_instances srcEx ∧
    (((RODData.mk0 2 2).update 1).read_object_acc_w srcEx).2.2 = 1 :=
  ⟨⟨Reachable.construct 2 2, by norm_num⟩,
    read_after_update_fresh (RODData.mk0 2 2) srcEx 1
      (Reachable.construct 2 2) (by norm_num)⟩

/-- **C5.** Starting from a freshly constructed container, after any prefix
of a sequence of positive-`dt` updates the simulation timestamp equals its
initial value plus the running sum of the timesteps, and it is monotonically
non-decreasing along the sequence. -/
theorem sim_timestamp_running_sum (count nobj : Nat) (dts l2 : List ℚ)
    (hpos : ∀ x ∈ dts ++ l2, 0 < x) :
    ((RODData.mk0 count nobj).updates dts).sim_timestamp =
        (RODData.mk0 count nobj).sim_timestamp + dts.sum ∧
    ((RODData.mk0 count nobj).updates dts).sim_timestamp ≤
      ((RODData.mk0 count nobj).updates (dts ++ l2)).sim_timestamp := by
  refine ⟨updates_sim dts _, ?_⟩
  rw [updates_sim, updates_sim, List.sum_append]
  have hl2 : 0 ≤ l2.sum := by
    apply List.sum_nonneg
    intro x hx
    exact le_of_lt (hpos x (List.mem_append_right dts hx))
  linarith

/-- Witness for C5 with timesteps `[1, 2]` extended by `[3]`. -/
theorem sim_timestamp_running_sum_witness :
    (∀ x ∈ ([1, 2] ++ [3] : List ℚ), 0 < x) ∧
    (((RODData.mk0 2 2).updates [1, 2]).sim_timestamp =
        (RODData.mk0 2 2).sim_timestamp + ([1, 2] : List ℚ).sum ∧
      ((RODData.mk0 2 2).updates [1, 2]).sim_timestamp ≤
        ((RODData.mk0 2 2).updates ([1, 2] ++ [3])).sim_timestamp) :=
  ⟨by decide, sim_timestamp_running_sum 2 2 [1, 2] [3] (by decide)⟩

/-- **C6.** In every reachable state both cache timestamps are at most the
simulation timestamp; and whenever a read refreshes a cache (it queried the
source and did not fail), the refreshed cache's timestamp equals the
container's simulation timestamp at that moment exactly. -/
theorem cache_timestamp_invariant (d : RODData) (src : PhysxSource)
    (hreach : Reachable d) :
    (d.object_state_buf.timestamp ≤ d.sim_timestamp ∧
      d.object_acc_buf.timestamp ≤ d.sim_timestamp) ∧
    ((d.read_object_state_w src).2.2 = 1 → (d.read_object_state_w src).1 ≠ none →
      (d.read_object_state_w src).2.1.object_state_buf.timestamp = d.sim_timestamp) ∧
    ((d.read_object_acc_w src).2.2 = 1 → (d.read_object_acc_w src).1 ≠ none →
      (d.read_object_acc_w src).2.1.object_acc_buf.timestamp = d.sim_timestamp) := by
  refine ⟨reachable_ts_le hreach, ?_, ?_⟩
  · by_cases hc : d.object_state_buf.timestamp < d.sim_timestamp
    · cases hv : compute_object_state_w d.num_objects d.num_instances src with
      | none => simp [RODData.read_object_state_w, hc, hv]
      | some val => simp [RODData.read_object_state_w, hc, hv]
    · simp [RODData.read_object_state_w, hc]
  · by_cases hc : d.object_acc_buf.timestamp < d.sim_timestamp
    · cases hv : compute_object_acc_w d.num_objects d.num_instances src with
      | none => simp [RODData.read_object_acc_w, hc, hv]
      | some val => simp [RODData.read_object_acc_w, hc, hv]
    · simp [RODData.read_object_acc_w, hc]

/-- Witness for C6 at the warm reachable state `dEx` and `srcEx`. -/
theorem cache_timestamp_invariant_witness :
    Reachable dEx ∧
    ((dEx.object_state_buf.timestamp ≤ dEx.sim_timestamp ∧
        dEx.object_acc_buf.timestamp ≤ dEx.sim_timestamp) ∧
      ((dEx.read_object_state_w srcEx).2.2 = 1 →
        (dEx.read_object_state_w srcEx).1 ≠ none →
        (dEx.read_object_state_w srcEx).2.1.object_state_buf.timestamp =
          dEx.sim_timestamp) ∧
      ((dEx.read_object_acc_w srcEx).2.2 = 1 →
        (dEx.read_object_acc_w srcEx).1 ≠ none →
        (dEx.read_object_acc_w srcEx).2.1.object_acc_buf.timestamp =
          dEx.sim_timestamp)) :=
  have hr : Reachable dEx :=
    Reachable.readAcc _ srcEx
      (Reachable.readState _ srcEx
        (Reachable.step _ 1 (Reachable.construct 2 2) (by norm_num)))
  ⟨hr, cache_timestamp_invariant dEx srcEx hr⟩

/-- **C7.** At construction both caches carry a sentinel timestamp strictly
below the initial simulation timestamp `0.0`, so the first read of each
cached quantity queries the source even before any `update` call. -/
theorem initial_caches_stale (count nobj : Nat) (src : PhysxSource) :
    (RODData.mk0 count nobj).object_state_buf.timestamp <
        (RODData.mk0 count nobj).sim_timestamp ∧
    (RODData.mk0 count nobj).object_acc_buf.timestamp <
        (RODData.mk0 count nobj).sim_timestamp ∧
    ((RODData.mk0 count nobj).read_object_state_w src).2.2 = 1 ∧
    ((RODData.mk0 count nobj).read_object_acc_w src).2.2 = 1 := by
  have hc : (RODData.mk0 count nobj).object_state_buf.timestamp <
      (RODData.mk0 count nobj).sim_timestamp := by
    norm_num [RODData.mk0, TimestampedBuffer.mkInitial]
  have hc2 : (RODData.mk0 count nobj).object_acc_buf.timestamp <
      (RODData.mk0 count nobj).sim_timestamp := by
    norm_num [RODData.mk0, TimestampedBuffer.mkInitial]
  refine ⟨hc, hc2, ?_, ?_⟩
  · simp only [RODData.read_object_state_w, if_pos hc]
    cases compute_object_state_w (RODData.mk0 count nobj).num_objects
        (RODData.mk0 count nobj).num_instances src <;> rfl
  · simp only [RODData.read_object_acc_w, if_pos hc2]
    cases compute_object_acc_w (RODData.mk0 count nobj).num_objects
        (RODData.mk0 count nobj).num_instances src <;> rfl



/-- **C8 as stated is false**: with 2 objects and 1 instance, an acceleration
buffer with leading dimension 1 (not `1 * 2 = 2`) but 6 total elements is
silently reinterpreted by the reshape, and a read of `object_acc_w` returns a
result instead of raising. -/
theorem shape_mismatch_can_return :
    srcBadShape.accelerations.length ≠
        (RODData.mk0 2 2).num_instances * (RODData.mk0 2 2).num_objects ∧
      ((RODData.mk0 2 2).read_object_acc_w srcBadShape).1 ≠ none := by decide

/-- **C8 (amended).** A stale read of `object_acc_w` raises (returns no
result) precisely when `num_objects * num_instances` is zero or does not
divide the total element count of the source's acceleration buffer; when it
divides, the reshape succeeds even if the leading dimension mismatches, and a
(reinterpreted) result is returned. -/
theorem acc_read_error_iff (d : RODData) (src : PhysxSource)
    (hstale : d.object_acc_buf.timestamp < d.sim_timestamp) :
    ((d.read_object_acc_w src).1 = none ↔
      ¬(0 < d.num_objects * d.num_instances ∧
        (d.num_objects * d.num_instances) ∣ src.accelerations.flatten.length)) := by
  by_cases hc : 0 < d.num_objects * d.num_instances ∧
      (d.num_objects * d.num_instances) ∣ src.accelerations.flatten.length
  · simp only [RODData.read_object_acc_w, if_pos hstale, compute_object_acc_w,
      view_to_data_order, reshapeOI]
    rw [if_pos hc]
    simp [hc]
    simpa using hc.2
  · simp only [RODData.read_object_acc_w, if_pos hstale, compute_object_acc_w,
      view_to_data_order, reshapeOI]
    rw [if_neg hc]
    simp [hc]
    intro h1 h2 hdvd
    exact hc ⟨Nat.mul_pos h1 h2, by simpa using hdvd⟩

/-- Witness for C8 (amended): a non-divisible element count makes the read
fail on the freshly constructed container. -/
theorem acc_read_error_iff_witness :
    (RODData.mk0 2 2).object_acc_buf.timestamp < (RODData.mk0 2 2).sim_timestamp ∧
      (((RODData.mk0 2 2).read_object_acc_w srcBadDvd).1 = none ↔
        ¬(0 < (RODData.mk0 2 2).num_objects * (RODData.mk0 2 2).num_instances ∧
          ((RODData.mk0 2 2).num_objects * (RODData.mk0 2 2).num_instances) ∣
            srcBadDvd.accelerations.flatten.length)) :=
  ⟨by decide, acc_read_error_iff (RODData.mk0 2 2) srcBadDvd (by decide)⟩

lemma getD_mem {α : Type} (l : List α) (i : Nat) (d : α) (h : i < l.length) :
    l.getD i d ∈ l := by
  rw [List.getD_eq_getElem _ _ h]
  exact List.getElem_mem h

lemma mem_to_getD {α : Type} {l : List α} {a : α} (d : α) (h : a ∈ l) :
    ∃ i, i < l.length ∧ a = l.getD i d := by
  obtain ⟨i, hi, he⟩ := List.mem_iff_getElem.mp h
  exact ⟨i, hi, by rw [List.getD_eq_getElem _ _ hi, he]⟩

lemma getD_map {α β : Type} (f : α → β) (l : List α) {i : Nat}
    (h : i < l.length) (d : β) (d0 : α) :
    (l.map f).getD i d = f (l.getD i d0) := by
  have h1 : i < (l.map f).length := by simpa using h
  rw [List.getD_eq_getElem _ _ h1, List.getElem_map, List.getD_eq_getElem _ _ h]

lemma getD_zipWith {α β γ : Type} (f : α → β → γ) :
    ∀ (A : List α) (B : List β) (i : Nat), i < A.length → i < B.length →
      ∀ (dA : α) (dB : β) (dC : γ),
        (List.zipWith f A B).getD i dC = f (A.getD i dA) (B.getD i dB) := by
  intro A
  induction A with
  | nil => intro B i hA; simp at hA
  | cons a t ih =>
    intro B i hA hB dA dB dC
    cases B with
    | nil => simp at hB
    | cons b s =>
      cases i with
      | zero => rfl
      | succ i =>
        simp only [List.zipWith_cons_cons, List.getD_cons_succ]
        exact ih s i (by simpa using hA) (by simpa using hB) dA dB dC

lemma idx_lt {I O i j : Nat} (hi : i < I) (hj : j < O) : j * I + i < I * O := by
  calc j * I + i < j * I + I := by omega
    _ = (j + 1) * I := by ring
    _ ≤ O * I := Nat.mul_le_mul_right I hj
    _ = I * O := Nat.mul_comm O I

lemma set_quat_row_len7 (r : Vec) (h : r.length = 7) :
    set_quat_wxyz_row r =
      [r.getD 0 0, r.getD 1 0, r.getD 2 0, r.getD 6 0,
       r.getD 3 0, r.getD 4 0, r.getD 5 0] := by
  match r, h with
  | [a, b, c, x, y, z, w], _ => rfl

lemma compute_state_spec (I O : Nat) (src : PhysxSource)
    (hI : 0 < I) (hO : 0 < O)
    (hT : src.transforms.length = I * O)
    (hTrows : ∀ r ∈ src.transforms, r.length = 7)
    (hV : src.velocities.length = I * O)
    (hVrows : ∀ r ∈ src.velocities, r.length = 6) :
    ∃ st, compute_object_state_w O I src = some st ∧
      st.length = I ∧ (∀ row ∈ st, row.length = O) ∧
      (∀ row ∈ st, ∀ r ∈ row, r.length = 13) ∧
      ∀ i j, i < I → j < O →
        (st.getD i []).getD j [] =
          set_quat_wxyz_row (src.transforms.getD (j * I + i) []) ++
            src.velocities.getD (j * I + i) [] := by
  obtain ⟨pose, hpose, hplen, hprow, hpentry⟩ :=
    view_to_data_order_spec I O 7 src.transforms hI hO hT hTrows
  obtain ⟨vel, hvel, hvlen, hvrow, hventry⟩ :=
    view_to_data_order_spec I O 6 src.velocities hI hO hV hVrows
  have hT7 : ∀ m, m < I * O → (src.transforms.getD m []).length = 7 := by
    intro m hm
    exact hTrows _ (getD_mem _ _ _ (by rw [hT]; exact hm))
  have hV6 : ∀ m, m < I * O → (src.velocities.getD m []).length = 6 := by
    intro m hm
    exact hVrows _ (getD_mem _ _ _ (by rw [hV]; exact hm))
  set pose2 : Tensor3 := pose.map (·.map set_quat_wxyz_row) with hp2
  have hcomp : compute_object_state_w O I src = some (cat3 pose2 vel) := by
    rw [compute_object_state_w, hpose, hvel]
  have hp2len : pose2.length = I := by rw [hp2, List.length_map, hplen]
  have hposemem : ∀ i, i < I → pose.getD i [] ∈ pose := by
    intro i hi
    exact getD_mem _ _ _ (by rw [hplen]; exact hi)
  have hp2row : ∀ i, i < I → (pose2.getD i []).length = O := by
    intro i hi
    rw [hp2, getD_map _ pose (by rw [hplen]; exact hi) [] [], List.length_map]
    exact hprow _ (hposemem i hi)
  have hvelrow : ∀ i, i < I → (vel.getD i []).length = O := by
    intro i hi
    exact hvrow _ (getD_mem _ _ _ (by rw [hvlen]; exact hi))
  have hclen : (cat3 pose2 vel).length = I := by
    simp only [cat3]
    rw [List.length_zipWith, hp2len, hvlen, Nat.min_self]
  have hentry : ∀ i j, i < I → j < O →
      ((cat3 pose2 vel).getD i []).getD j [] =
        set_quat_wxyz_row (src.transforms.getD (j * I + i) []) ++
          src.velocities.getD (j * I + i) [] := by
    intro i j hi hj
    have hi2 : i < pose2.length := by rw [hp2len]; exact hi
    have hi3 : i < vel.length := by rw [hvlen]; exact hi
    simp only [cat3]
    rw [getD_zipWith _ pose2 vel i hi2 hi3 [] [] []]
    rw [getD_zipWith (· ++ ·) (pose2.getD i []) (vel.getD i []) j
      (by rw [hp2row i hi]; exact hj) (by rw [hvelrow i hi]; exact hj) [] [] []]
    congr 1
    · rw [hp2, getD_map _ pose (by rw [hplen]; exact hi) [] []]
      rw [getD_map set_quat_wxyz_row _
        (by rw [hprow _ (hposemem i hi)]; exact hj) [] []]
      rw [hpentry i j hi hj]
    · exact hventry i j hi hj
  have hrowlen : ∀ row ∈ cat3 pose2 vel, row.length = O := by
    intro row hrow
    obtain ⟨i, hi, hrowi⟩ := mem_to_getD [] hrow
    have hiI : i < I := by rw [← hclen]; exact hi
    rw [hrowi]
    simp only [cat3]
    rw [getD_zipWith _ pose2 vel i (by rw [hp2len]; exact hiI)
      (by rw [hvlen]; exact hiI) [] [] []]
    rw [List.length_zipWith, hp2row i hiI, hvelrow i hiI, Nat.min_self]
  have hr13 : ∀ row ∈ cat3 pose2 vel, ∀ r ∈ row, r.length = 13 := by
    intro row hrow r hr
    obtain ⟨i, hi, hrowi⟩ := mem_to_getD [] hrow
    have hiI : i < I := by rw [← hclen]; exact hi
    obtain ⟨j, hj, hrj⟩ := mem_to_getD [] hr
    have hjO : j < O := by rw [← hrowlen row hrow]; exact hj
    rw [hrj, hrowi, hentry i j hiI hjO, List.length_append]
    rw [set_quat_row_len7 _ (hT7 _ (idx_lt hiI hjO))]
    rw [hV6 _ (idx_lt hiI hjO)]
    rfl
  exact ⟨cat3 pose2 vel, hcomp, hclen, hrowlen, hr13, hentry⟩

/-- **C9.** For a well-shaped source, the cached state's quaternion slice
`[..., 3:7]` (what `object_quat_w` returns, with no further transformation)
holds, at every `[instance, object]` index, the raw transform row's
components reordered from the physics view's `(x, y, z, w)` to `(w, x, y, z)`. -/
theorem object_quat_w_is_wxyz (I O : Nat) (src : PhysxSource)
    (hI : 0 < I) (hO : 0 < O)
    (hT : src.transforms.length = I * O)
    (hTrows : ∀ r ∈ src.transforms, r.length = 7)
    (hV : src.velocities.length = I * O)
    (hVrows : ∀ r ∈ src.velocities, r.length = 6) :
    ∃ st, compute_object_state_w O I src = some st ∧
      (∀ d : RODData, (d.read_object_quat_w src).1 =
        ((d.read_object_state_w src).1).map (slice3 3 7)) ∧
      ∀ i j, i < I → j < O →
        ((slice3 3 7 st).getD i []).getD j [] =
          [(src.transforms.getD (j * I + i) []).getD 6 0,
           (src.transforms.getD (j * I + i) []).getD 3 0,
           (src.transforms.getD (j * I + i) []).getD 4 0,
           (src.transforms.getD (j * I + i) []).getD 5 0] := by
  obtain ⟨st, hst, hstlen, hstrow, hst13, hentry⟩ :=
    compute_state_spec I O src hI hO hT hTrows hV hVrows
  refine ⟨st, hst, fun d => rfl, ?_⟩
  intro i j hi hj
  have hiI : i < st.length := by rw [hstlen]; exact hi
  have hmem : st.getD i [] ∈ st := getD_mem _ _ _ hiI
  have hjO : j < (st.getD i []).length := by rw [hstrow _ hmem]; exact hj
  have h7 : (src.transforms.getD (j * I + i) []).length = 7 :=
    hTrows _ (getD_mem _ _ _ (by rw [hT]; exact idx_lt hi hj))
  simp only [slice3]
  rw [getD_map _ st hiI [] []]
  rw [getD_map _ _ hjO [] []]
  rw [hentry i j hi hj]
  rw [set_quat_row_len7 _ h7]
  rfl

/-- Witness for C9 at `I = 1`, `O = 2` and the concrete source `srcEx`. -/
theorem object_quat_w_is_wxyz_witness :
    ((0 : Nat) < 1 ∧ (0 : Nat) < 2 ∧
      srcEx.transforms.length = 1 * 2 ∧ (∀ r ∈ srcEx.transforms, r.length = 7) ∧
      srcEx.velocities.length = 1 * 2 ∧ (∀ r ∈ srcEx.velocities, r.length = 6)) ∧
    (∃ st, compute_object_state_w 2 1 srcEx = some st ∧
      (∀ d : RODData, (d.read_object_quat_w srcEx).1 =
        ((d.read_object_state_w srcEx).1).map (slice3 3 7)) ∧
      ∀ i j, i < 1 → j < 2 →
        ((slice3 3 7 st).getD i []).getD j [] =
          [(srcEx.transforms.getD (j * 1 + i) []).getD 6 0,
           (srcEx.transforms.getD (j * 1 + i) []).getD 3 0,
           (srcEx.transforms.getD (j * 1 + i) []).getD 4 0,
           (srcEx.transforms.getD (j * 1 + i) []).getD 5 0]) :=
  ⟨by decide,
    object_quat_w_is_wxyz 1 2 srcEx (by decide) (by decide) (by decide)
      (by decide) (by decide) (by decide)⟩

lemma map_map_id (t : Tensor3) (F : Vec → Vec)
    (h : ∀ row ∈ t, ∀ r ∈ row, F r = r) :
    t.map (·.map F) = t := by
  conv_rhs => rw [← List.map_id t]
  refine List.map_congr_left fun row hrow => ?_
  have hrowmap : row.map F = row := by
    conv_rhs => rw [← List.map_id row]
    exact List.map_congr_left fun r hr => h row hrow r hr
  simpa using hrowmap

lemma zipWith_append_map (f g : Vec → Vec) :
    ∀ (row : Mat), List.zipWith (· ++ ·) (row.map f) (row.map g) =
      row.map fun r => f r ++ g r := by
  intro row
  induction row with
  | nil => rfl
  | cons r rest ih => simp only [List.map_cons, List.zipWith_cons_cons, ih]

lemma cat3_map_map (f g : Vec → Vec) :
    ∀ (t : Tensor3), cat3 (t.map (·.map f)) (t.map (·.map g)) =
      t.map (·.map fun r => f r ++ g r) := by
  intro t
  induction t with
  | nil => rfl
  | cons row rest ih =>
    simp only [List.map_cons, cat3, List.zipWith_cons_cons] at ih ⊢
    rw [zipWith_append_map, ih]

lemma row_partition13 (r : Vec) (h : r.length = 13) :
    (r.drop 0).take (3 - 0) ++ ((r.drop 3).take (7 - 3) ++
      ((r.drop 7).take (10 - 7) ++ (r.drop 10).take (13 - 10))) = r := by
  show r.take 3 ++ ((r.drop 3).take 4 ++ ((r.drop 7).take 3 ++ (r.drop 10).take 3)) = r
  have h10 : (r.drop 10).take 3 = r.drop 10 := List.take_of_length_le (by simp [h])
  have d1 : (r.drop 7).drop 3 = r.drop 10 := by rw [List.drop_drop]
  have d2 : (r.drop 3).drop 4 = r.drop 7 := by rw [List.drop_drop]
  rw [h10, ← d1, List.take_append_drop, ← d2, List.take_append_drop,
    List.take_append_drop]

lemma row_partition6 (r : Vec) (h : r.length = 6) :
    (r.drop 0).take (3 - 0) ++ (r.drop 3).take (6 - 3) = r := by
  show r.take 3 ++ (r.drop 3).take 3 = r
  have h3 : (r.drop 3).take 3 = r.drop 3 := List.take_of_length_le (by simp [h])
  rw [h3, List.take_append_drop]

lemma tensor_partition13 (t : Tensor3) (h : ∀ row ∈ t, ∀ r ∈ row, r.length = 13) :
    cat3 (slice3 0 3 t) (cat3 (slice3 3 7 t) (cat3 (slice3 7 10 t) (slice3 10 13 t))) = t := by
  simp only [slice3]
  rw [cat3_map_map, cat3_map_map, cat3_map_map]
  refine map_map_id t _ ?_
  intro row hrow r hr
  exact row_partition13 r (h row hrow r hr)

lemma tensor_partition6 (t : Tensor3) (h : ∀ row ∈ t, ∀ r ∈ row, r.length = 6) :
    cat3 (slice3 0 3 t) (slice3 3 6 t) = t := by
  simp only [slice3]
  rw [cat3_map_map]
  refine map_map_id t _ ?_
  intro row hrow r hr
  exact row_partition6 r (h row hrow r hr)

lemma readStateProp_snd (p : StateProp) (src : PhysxSource) (d : RODData) :
    (RODData.readStateProp p src d).2 = (d.read_object_state_w src).2 := by
  cases p <;> rfl

lemma read_state_fresh (src : PhysxSource) (d : RODData)
    (h : ¬ d.object_state_buf.timestamp < d.sim_timestamp) :
    (d.read_object_state_w src).2 = (d, 0) := by
  simp [RODData.read_object_state_w, h]

lemma read_state_stale_success (src : PhysxSource) (d : RODData) (v : Tensor3)
    (h : d.object_state_buf.timestamp < d.sim_timestamp)
    (hv : compute_object_state_w d.num_objects d.num_instances src = some v) :
    (d.read_object_state_w src).2 =
      ({ d with object_state_buf := { data := v, timestamp := d.sim_timestamp } }, 1) := by
  simp [RODData.read_object_state_w, h, hv]

lemma readSeq_fresh (src : PhysxSource) :
    ∀ (ps : List StateProp) (d : RODData),
      ¬ d.object_state_buf.timestamp < d.sim_timestamp →
      readSeq src d ps = (d, 0) := by
  intro ps
  induction ps with
  | nil => intro d _; rfl
  | cons p rest ih =>
    intro d h
    have h2 : (RODData.readStateProp p src d).2 = (d, 0) := by
      rw [readStateProp_snd, read_state_fresh src d h]
    simp only [readSeq, h2]
    rw [ih d h]
    simp

lemma readSeq_count_le_one (src : PhysxSource) (ps : List StateProp) :
    ∀ (d : RODData),
      (compute_object_state_w d.num_objects d.num_instances src).isSome →
      (readSeq src d ps).2 ≤ 1 := by
  induction ps with
  | nil => intro d _; simp [readSeq]
  | cons p rest ih =>
    intro d hsucc
    by_cases hc : d.object_state_buf.timestamp < d.sim_timestamp
    · obtain ⟨v, hv⟩ := Option.isSome_iff_exists.mp hsucc
      have h2 : (RODData.readStateProp p src d).2 =
          ({ d with object_state_buf := { data := v, timestamp := d.sim_timestamp } }, 1) := by
        rw [readStateProp_snd, read_state_stale_success src d v hc hv]
      simp only [readSeq, h2]
      rw [readSeq_fresh src rest _ (by simp)]
      simp
    · have h2 : (RODData.readStateProp p src d).2 = (d, 0) := by
        rw [readStateProp_snd, read_state_fresh src d hc]
      simp only [readSeq, h2]
      simpa using ih d hsucc

/-- **C10.** The derived properties are slices of the shared cached buffers:
any sequence of state-backed property reads queries the source at most once
(for a reshapable source); `object_pos_w`, `object_quat_w`,
`object_lin_vel_w`, `object_ang_vel_w` and `object_vel_w` are last-axis
slices of the one `object_state_w` value, whose slices concatenate back to it
exactly (rows have exactly 13 components); likewise `object_lin_acc_w` and
`object_ang_acc_w` partition `object_acc_w` (rows of 6). -/
theorem derived_props_share_buffers (d : RODData) (src : PhysxSource)
    (ps : List StateProp)
    (hI : 0 < d.num_instances) (hO : 0 < d.num_objects)
    (hT : src.transforms.length = d.num_instances * d.num_objects)
    (hTrows : ∀ r ∈ src.transforms, r.length = 7)
    (hV : src.velocities.length = d.num_instances * d.num_objects)
    (hVrows : ∀ r ∈ src.velocities, r.length = 6)
    (hA : src.accelerations.length = d.num_instances * d.num_objects)
    (hArows : ∀ r ∈ src.accelerations, r.length = 6) :
    (readSeq src d ps).2 ≤ 1 ∧
    (∀ v, (d.read_object_state_w src).1 = some v →
      (d.read_object_pos_w src).1 = some (slice3 0 3 v) ∧
      (d.read_object_quat_w src).1 = some (slice3 3 7 v) ∧
      (d.read_object_lin_vel_w src).1 = some (slice3 7 10 v) ∧
      (d.read_object_ang_vel_w src).1 = some (slice3 10 13 v) ∧
      (d.read_object_vel_w src).1 = some (slice3 7 13 v)) ∧
    (∀ st, compute_object_state_w d.num_objects d.num_instances src = some st →
      ∀ row ∈ st, ∀ r ∈ row, r.length = 13) ∧
    (∀ t : Tensor3, (∀ row ∈ t, ∀ r ∈ row, r.length = 13) →
      cat3 (slice3 0 3 t)
        (cat3 (slice3 3 7 t) (cat3 (slice3 7 10 t) (slice3 10 13 t))) = t) ∧
    (∀ w, (d.read_object_acc_w src).1 = some w →
      (d.read_object_lin_acc_w src).1 = some (slice3 0 3 w) ∧
      (d.read_object_ang_acc_w src).1 = some (slice3 3 6 w)) ∧
    (∀ ac, compute_object_acc_w d.num_objects d.num_instances src = some ac →
      ∀ row ∈ ac, ∀ r ∈ row, r.length = 6) ∧
    (∀ t : Tensor3, (∀ row ∈ t, ∀ r ∈ row, r.length = 6) →
      cat3 (slice3 0 3 t) (slice3 3 6 t) = t) := by
  obtain ⟨st0, hst0, hlen0, hrow0, hst13, hentry0⟩ :=
    compute_state_spec d.num_instances d.num_objects src hI hO hT hTrows hV hVrows
  refine ⟨?_, ?_, ?_, ?_, ?_, ?_, ?_⟩
  · exact readSeq_count_le_one src ps d (by rw [hst0]; rfl)
  · intro v hv
    refine ⟨?_, ?_, ?_, ?_, ?_⟩
    · simp only [RODData.read_object_pos_w, hv]; rfl
    · simp only [RODData.read_object_quat_w, hv]; rfl
    · simp only [RODData.read_object_lin_vel_w, hv]; rfl
    · simp only [RODData.read_object_ang_vel_w, hv]; rfl
    · simp only [RODData.read_object_vel_w, hv]; rfl
  · intro st hstEq
    rw [hst0] at hstEq
    have hinj := Option.some.inj hstEq
    subst hinj
    exact hst13
  · intro t ht
    exact tensor_partition13 t ht
  · intro w hw
    constructor
    · simp only [RODData.read_object_lin_acc_w, hw]; rfl
    · simp only [RODData.read_object_ang_acc_w, hw]; rfl
  · intro ac hacEq
    obtain ⟨res, hres, hreslen, hresrow, hresentry⟩ :=
      view_to_data_order_spec d.num_instances d.num_objects 6
        src.accelerations hI hO hA hArows
    simp only [compute_object_acc_w] at hacEq
    rw [hres] at hacEq
    have hinj := Option.some.inj hacEq
    subst hinj
    intro row hrow r hr
    obtain ⟨i, hi, hrowi⟩ := mem_to_getD [] hrow
    have hiI : i < d.num_instances := by rw [← hreslen]; exact hi
    obtain ⟨j, hj, hrj⟩ := mem_to_getD [] hr
    have hjO : j < d.num_objects := by rw [← hresrow row hrow]; exact hj
    rw [hrj, hrowi, hresentry i j hiI hjO]
    exact hArows _ (getD_mem _ _ _ (by rw [hA]; exact idx_lt hiI hjO))
  · intro t ht
    exact tensor_partition6 t ht

/-- Witness for C10 at the freshly constructed container, `srcEx` and a
three-property read sequence. -/
theorem derived_props_share_buffers_witness :
    (0 < (RODData.mk0 2 2).num_instances ∧ 0 < (RODData.mk0 2 2).num_objects ∧
      srcEx.transforms.length =
        (RODData.mk0 2 2).num_instances * (RODData.mk0 2 2).num_objects ∧
      (∀ r ∈ srcEx.transforms, r.length = 7) ∧
      srcEx.velocities.length =
        (RODData.mk0 2 2).num_instances * (RODData.mk0 2 2).num_objects ∧
      (∀ r ∈ srcEx.velocities, r.length = 6) ∧
      srcEx.accelerations.length =
        (RODData.mk0 2 2).num_instances * (RODData.mk0 2 2).num_objects ∧
      (∀ r ∈ srcEx.accelerations, r.length = 6)) ∧
    ((readSeq srcEx (RODData.mk0 2 2)
        [StateProp.pos, StateProp.quat, StateProp.lin_vel]).2 ≤ 1 ∧
      (∀ v, ((RODData.mk0 2 2).read_object_state_w srcEx).1 = some v →
        ((RODData.mk0 2 2).read_object_pos_w srcEx).1 = some (slice3 0 3 v) ∧
        ((RODData.mk0 2 2).read_object_quat_w srcEx).1 = some (slice3 3 7 v) ∧
        ((RODData.mk0 2 2).read_object_lin_vel_w srcEx).1 = some (slice3 7 10 v) ∧
        ((RODData.mk0 2 2).read_object_ang_vel_w srcEx).1 = some (slice3 10 13 v) ∧
        ((RODData.mk0 2 2).read_object_vel_w srcEx).1 = some (slice3 7 13 v)) ∧
      (∀ st, compute_object_state_w (RODData.mk0 2 2).num_objects
          (RODData.mk0 2 2).num_instances srcEx = some st →
        ∀ row ∈ st, ∀ r ∈ row, r.length = 13) ∧
      (∀ t : Tensor3, (∀ row ∈ t, ∀ r ∈ row, r.length = 13) →
        cat3 (slice3 0 3 t)
          (cat3 (slice3 3 7 t) (cat3 (slice3 7 10 t) (slice3 10 13 t))) = t) ∧
      (∀ w, ((RODData.mk0 2 2).read_object_acc_w srcEx).1 = some w →
        ((RODData.mk0 2 2).read_object_lin_acc_w srcEx).1 = some (slice3 0 3 w) ∧
        ((RODData.mk0 2 2).read_object_ang_acc_w srcEx).1 = some (slice3 3 6 w)) ∧
      (∀ ac, compute_object_acc_w (RODData.mk0 2 2).num_objects
          (RODData.mk0 2 2).num_instances srcEx = some ac →
        ∀ row ∈ ac, ∀ r ∈ row, r.length = 6) ∧
      (∀ t : Tensor3, (∀ row ∈ t, ∀ r ∈ row, r.length = 6) →
        cat3 (slice3 0 3 t) (slice3 3 6 t) = t)) :=
  ⟨by decide,
    derived_props_share_buffers (RODData.mk0 2 2) srcEx
      [StateProp.pos, StateProp.quat, StateProp.lin_vel]
      (by decide) (by decide) (by decide) (by decide) (by decide) (by decide)
      (by decide) (by decide)⟩

end RigidObjectCollection
